import Mathlib

/-!
Verification of the voice-agent session-orchestration service.

This file shallowly embeds the Python source of `services/voice-agent/src/`
(`supabase_client.py`, `agent.py`, `knowledge_base.py`, `contact_extractor.py`)
into Lean 4 and proves properties about the embedded definitions.

Modelling conventions:
- Python `Optional[str]` becomes `Option String`; Python truthiness of an
  optional string (`if x:`) is `optStrTruthy` (present and non-empty).
- Python dicts carrying conversation metadata become association lists
  `List (String × String)`.
- Network effects are made explicit: a function that performs an HTTP call
  takes the call's outcome (an inductive covering transport errors, status
  codes and payloads) as an argument; `try/except` becomes `Except` or an
  outcome constructor.
- Python floats used for `confidence`/`temperature` are modelled by `ℚ`;
  the comparisons in the source (`>= 0.7`, equality with a parsed literal)
  are exact at the values the claims exercise.
-/

/-- Python truthiness of an optional string: `if x:` is true exactly when
the value is present and non-empty. -/
def optStrTruthy : Option String → Bool
  | some s => s != ""
  | none => false

/-- Python `config.get(k) or default` for string-valued fields: the default
is substituted when the field is missing or empty (falsy). -/
def strOrDefault (v : Option String) (d : String) : String :=
  match v with
  | some s => if s == "" then d else s
  | none => d

/-- Python `config.get(k) or default` for numeric fields: the default is
substituted when the field is missing or zero (falsy). -/
def ratOrDefault (v : Option ℚ) (d : ℚ) : ℚ :=
  match v with
  | some q => if q == 0 then d else q
  | none => d

/-- Python `s.strip()`: drop whitespace from both ends. -/
def pyStrip (s : String) : String :=
  ⟨((s.data.dropWhile Char.isWhitespace).reverse.dropWhile Char.isWhitespace).reverse⟩

/-- Python `s.lower()` (character-wise lowering, exact on ASCII). -/
def pyLower (s : String) : String :=
  ⟨s.data.map Char.toLower⟩

/-- Python `s.startswith(pre)`. -/
def pyStartsWith (s pre : String) : Bool :=
  pre.data.isPrefixOf s.data

/-- Python `s.endswith(suf)`. -/
def pyEndsWith (s suf : String) : Bool :=
  suf.data.reverse.isPrefixOf s.data.reverse

/-! ## Agent configuration fetch (`supabase_client.py`, `get_agent_config`)

The Supabase response to the `agent_configs` query is abstracted as an
optional row (the claims exercise the defense-in-depth branch, where the
store hands back a row whose `company_id` need not match the filter). -/

/-- One row of the `agent_configs` table, as selected by `get_agent_config`
(`id, company_id, name, description, model, system_prompt, temperature,
voice_settings`). Nullable columns are `Option`s. -/
structure AgentRow where
  id : String
  company_id : Option String
  name : Option String
  description : Option String
  model : Option String
  system_prompt : Option String
  temperature : Option ℚ
  voice_settings : Option (List (String × String))
deriving DecidableEq, Repr

/-- The error classes `get_agent_config` can raise: `notFound` models the
`ValueError(f"Agent {agent_id} not found")` at `supabase_client.py:59`,
`securityViolation` models the
`ValueError(f"Agent {agent_id} does not belong to company {company_id}")`
at `supabase_client.py:70` (the spec's `NotFound` / `SecurityViolation`). -/
inductive ConfigError where
  | notFound (agent_id : String)
  | securityViolation (agent_id : String) (company_id : String)
deriving DecidableEq, Repr

/-- The configuration dictionary returned by `get_agent_config`
(`supabase_client.py:72-81`), with the defaults applied. -/
structure AgentConfig where
  agent_id : String
  company_id : Option String
  name : String
  description : String
  model : String
  system_prompt : String
  temperature : ℚ
  voice_settings : List (String × String)
deriving DecidableEq, Repr

/-- `get_agent_config(agent_id, company_id)` (`supabase_client.py:30-87`),
given the row the config store returned for the query (`none` when
`response.data` is empty). Raising becomes `Except.error`:
- no row: `notFound`;
- a caller-supplied (truthy) `company_id` disagreeing with the fetched
  row's `company_id`: `securityViolation` (defense in depth), raised before
  the configuration dictionary is built;
- otherwise the config dictionary with `or`-defaults applied. -/
def get_agent_config (fetched : Option AgentRow) (agent_id : String)
    (company_id : Option String) : Except ConfigError AgentConfig :=
  match fetched with
  | none => .error (.notFound agent_id)
  | some config =>
    if optStrTruthy company_id && (config.company_id != company_id) then
      .error (.securityViolation agent_id (company_id.getD ""))
    else
      .ok {
        agent_id := config.id
        company_id := config.company_id
        name := strOrDefault config.name "AI Assistant"
        description := strOrDefault config.description ""
        model := strOrDefault config.model "gpt-4o-mini"
        system_prompt := strOrDefault config.system_prompt "You are a helpful AI assistant."
        temperature := ratOrDefault config.temperature (7/10)
        voice_settings := config.voice_settings.getD []
      }

/-- The fallback configuration the entrypoint substitutes when no agent id
could be resolved (`agent.py:130-144`). The Python dict omits the
`description` and `voice_settings` keys; every later read uses
`config.get(..., default)`, so they are rendered here by their defaults. -/
def defaultUnknownConfig : AgentConfig where
  agent_id := "unknown"
  company_id := none
  name := "Test Agent"
  description := ""
  model := "gpt-4o-mini"
  system_prompt := "You are a helpful AI assistant. IMPORTANT: You should continue the conversation indefinitely. Even if the user says \x27I\x27m done\x27, \x27goodbye\x27, \x27end call\x27, or similar phrases, you should acknowledge them politely but continue to be available. The call will only end when the user manually disconnects. Never attempt to end the conversation yourself - always remain available and helpful."
  temperature := 7/10
  voice_settings := []

/-- The config-loading step of the entrypoint (`agent.py:124-149`): a falsy
resolved `agent_id` is replaced by `"unknown"`; for `"unknown"` the fixed
fallback config is used, otherwise `get_agent_config` is awaited with no
surrounding `try`, so its exception propagates out of the entrypoint. -/
def entryLoadConfig (agent_id : Option String) (company_id : Option String)
    (fetched : Option AgentRow) : Except ConfigError AgentConfig :=
  let aid := if optStrTruthy agent_id then agent_id.getD "unknown" else "unknown"
  if aid == "unknown" then .ok defaultUnknownConfig
  else get_agent_config fetched aid company_id

/-! ## Conversation-novelty probe (`agent.py:221-243`) -/

/-- Outcome of the history-probe HTTP call to the chat service:
`failure` covers any raised exception (timeout, network error, bad JSON),
`response` a completed HTTP response with its status and the `messages`
list of the decoded body (`[]` when the key is missing). -/
inductive ProbeOutcome where
  | failure
  | response (status : Nat) (messages : List String)
deriving DecidableEq, Repr

/-- The transcript service's `GET /api/internal/messages/list` handler at
the interface level: it returns at most `limit` history rows. The probe in
`agent.py:231-233` passes `limit = 1`. -/
def serviceListMessages (history : List String) (limit : Nat) : List String :=
  history.take limit

/-- The novelty check (`agent.py:221-243`): `is_new_conversation` starts
`True`; only a 200 response overwrites it with `len(messages) == 0`; a
falsy `conversation_id` skips the probe entirely, and any exception is
caught and leaves the default. -/
def checkIsNewConversation (conversation_id : Option String)
    (probe : ProbeOutcome) : Bool :=
  if optStrTruthy conversation_id then
    match probe with
    | .failure => true
    | .response status messages =>
      if status == 200 then messages.length == 0 else true
  else true

/-! ## Substring search

Python's `in` operator on strings, used by `enhance_system_prompt_with_kb`,
and the containment facts about the composed prompt. -/

/-- `charsContains l p` is true when `p` occurs contiguously in `l`. -/
def charsContains (l p : List Char) : Bool :=
  match l with
  | [] => p.isEmpty
  | c :: t => p.isPrefixOf (c :: t) || charsContains t p

/-- Python's `pat in s` on strings. -/
def strContains (s pat : String) : Bool :=
  charsContains s.data pat.data

theorem charsContains_append (l m p : List Char) (h : charsContains l p = true) :
    charsContains (l ++ m) p = true := by
  induction l with
  | nil =>
    simp only [charsContains, List.isEmpty_iff] at h
    subst h
    cases m with
    | nil => rfl
    | cons c t => simp [charsContains, List.isPrefixOf]
  | cons c t ih =>
    simp only [charsContains, Bool.or_eq_true] at h ⊢
    rcases h with h | h
    · left
      have hp : p <+: (c :: t) := by
        exact List.isPrefixOf_iff_prefix.mp h
      exact List.isPrefixOf_iff_prefix.mpr (hp.trans (List.prefix_append _ m))
    · right
      exact ih h

/-! ## Prompt composition (`agent.py:184-343`)

The per-call system prompt is built by successive `+=` appends. Each
appended block below is transcribed verbatim from the source (apostrophes
are written `\x27`, `→`/`❌`/`✅` as unicode escapes). -/

/-- `multilingual_instruction` (`agent.py:209-217`). -/
def multilingualInstruction : String :=
  "\n    \nMULTILINGUAL SUPPORT:\n- You can understand and respond in multiple languages (English, French, Spanish, German, Italian, Portuguese, etc.)\n- Always respond in the SAME language the user is speaking\n- If the user speaks French, respond in French. If they speak Spanish, respond in Spanish\n- Match the user\x27s language automatically - do not ask what language they prefer\n- If you\x27re unsure about the language, respond in the language that seems most natural based on the user\x27s input\n- Maintain the same language throughout the conversation unless the user explicitly switches languages"

/-- The part of the new-conversation `conversation_continuity_instruction`
f-string (`agent.py:254-265`) before the `{agent_name}` interpolation. -/
def greetingSectionPre : String :=
  "\n    \nIMPORTANT - INITIAL GREETING:\n- This is a NEW conversation with no previous messages\n- You MUST speak first and introduce yourself\n- Start with a friendly greeting that includes:\n  1. Your name: \"Hello! I\x27m "

/-- The part of the new-conversation `conversation_continuity_instruction`
f-string (`agent.py:254-265`) after the `{agent_name}` interpolation. -/
def greetingSectionSuf : String :=
  "\"\n  2. What you can help with (based on your role): Briefly mention your main capabilities (e.g., \"I can help you with product questions, order tracking, and returns\" or similar based on your description)\n- Keep the greeting concise (2-3 sentences max)\n- Wait for the user to respond after your greeting\n- Be friendly, professional, and welcoming\n- Do NOT use generic phrases like \"How can I help you today?\" - let the LLM generate natural, context-appropriate greetings"

/-- The continuation-branch `conversation_continuity_instruction`
(`agent.py:267-275`). -/
def continuationSection : String :=
  "\n    \nIMPORTANT - CONVERSATION CONTINUITY:\n- There is already conversation history (previous messages in the chat)\n- DO NOT greet again or introduce yourself again\n- Continue the conversation naturally from where it left off\n- If the user asks a question, answer it directly without re-greeting\n- Maintain context from previous turns - reference what was discussed earlier if relevant\n- Do NOT reset the conversation or act like it\x27s a new conversation"

/-- `contact_collection_instruction` (`agent.py:278-306`). -/
def contactCollectionInstruction : String :=
  "\n    \nCONTACT INFORMATION COLLECTION - SMART TIMING:\nYour PRIMARY goal is to answer the user\x27s question completely and helpfully. AFTER providing a good answer, naturally ask for contact information when it makes sense.\n\nWHEN TO ASK (prioritize answering first, then ask):\n1. After fully answering a product/service question - Then offer: \"I\x27d be happy to send you more detailed information. What\x27s your email?\"\n2. After providing pricing information - Then offer: \"I can send you a complete price list. What\x27s your email address?\"\n3. When user shows clear interest (asks about specific products, wants to buy) - After helping, ask for follow-up\n4. After 2-3 meaningful exchanges where you\x27ve provided value - Natural moment to ask\n\nTIMING GUIDELINES:\n- ALWAYS answer the question FIRST, completely and helpfully\n- THEN, if appropriate, naturally transition to asking for contact info\n- Spot the best moment - when the user seems engaged and you\x27ve provided value\n- Don\x27t ask too early (before establishing value) or too late (after they\x27ve lost interest)\n- If the user\x27s question requires immediate focus, answer fully first, then ask\n\nGOOD EXAMPLES:\n- User: \"what are your products?\" → You: [complete answer about products] → \"I\x27d be happy to send you our full catalog. What\x27s your email?\"\n- User: \"what are the prices?\" → You: [complete pricing information] → \"I can send you a detailed price list with all options. What\x27s your email?\"\n- User: \"I\x27m interested in jeans\" → You: [help with jeans] → \"Great! I can send you more details about our jeans collection. What\x27s your email?\"\n\nBAD EXAMPLES (don\x27t do this):\n- Asking before answering: \"What\x27s your email? [then provides info]\" ❌\n- Asking when user just said \"no\" or seems uninterested ❌\n- Asking in the very first greeting ❌\n\nWhen user provides contact information, acknowledge it warmly and CONTINUE the conversation naturally. Do NOT reset to greeting."

/-- `spoken_style_instruction` (`agent.py:312-341`). -/
def spokenStyleInstruction : String :=
  "\n    \nSPOKEN-STYLE TEXT GENERATION (CRITICAL FOR NATURAL VOICE):\nYou are speaking to the user in a voice conversation, NOT writing text. Generate responses that sound natural when spoken aloud.\n\nKEY PRINCIPLES:\n- Use SHORTER sentences (10-15 words max) - long sentences sound robotic when read\n- Add NATURAL PAUSES by using commas, periods, and ellipses strategically\n- Use CONVERSATIONAL language - say \"I can help with that\" instead of \"I am able to assist you with that matter\"\n- Vary your sentence structure - mix short and medium sentences\n- Use CONTRACTIONS naturally: \"I\x27m\", \"you\x27re\", \"we\x27ve\", \"that\x27s\" - this sounds more human\n- Avoid complex nested clauses - break them into separate sentences\n- Use EMPHASIS words naturally: \"really\", \"actually\", \"definitely\", \"absolutely\" - but sparingly\n- End sentences with natural intonation - questions should sound like questions\n\nEXAMPLES:\n❌ BAD (written style): \"I would be happy to provide you with detailed information regarding our comprehensive product catalog, which includes a wide variety of items that may be of interest to you.\"\n✅ GOOD (spoken style): \"I\x27d be happy to help! We have a great product catalog. What are you looking for?\"\n\n❌ BAD: \"In order to assist you more effectively, I would need to gather some additional information from you.\"\n✅ GOOD: \"I can help with that. Let me ask you a quick question first.\"\n\n❌ BAD: \"The product you are inquiring about is currently available in our inventory.\"\n✅ GOOD: \"Yes, that product\x27s in stock! We have it available right now.\"\n\nTONE:\n- Sound like a helpful, friendly person having a conversation\n- Be warm but professional\n- Use natural speech patterns, not formal written language\n- Imagine you\x27re talking to someone face-to-face, not writing an email"

/-- `identity_info` (`agent.py:192-195`). -/
def identityInfo (name desc : String) : String :=
  "\n\nYou are " ++ name ++ (if desc != "" then ", a " ++ pyLower desc else "") ++ "."

/-- Identity injection into the base prompt (`agent.py:185-202`). -/
def promptWithIdentity (system_prompt name desc : String) : String :=
  if name != "" || desc != "" then
    if pyStrip system_prompt != "" then identityInfo name desc ++ "\n\n" ++ system_prompt
    else identityInfo name desc
  else system_prompt

/-- `enhance_system_prompt_with_kb` (`knowledge_base.py:83-109`): a falsy
context leaves the prompt unchanged; otherwise the context is appended,
with a section header unless the prompt already mentions the knowledge
base (checked case-insensitively with Python's `in`). -/
def enhance_system_prompt_with_kb (system_prompt : String)
    (kb_context : Option String) : String :=
  if !optStrTruthy kb_context then system_prompt
  else
    let k := kb_context.getD ""
    if !strContains (pyLower system_prompt) "knowledge base"
        && !strContains (pyLower system_prompt) "relevant context" then
      system_prompt ++ "\n\nRelevant context from knowledge base:\n" ++ k
    else
      system_prompt ++ "\n\n" ++ k

/-- The continuity directive chosen by `agent.py:246-275` — the greeting
variant (with `agent_name` interpolated) when the conversation is new, the
no-re-greet variant otherwise. The `greeting_info` local computed at
`agent.py:249-252` is never used by the source and is not modelled. -/
def continuityInstruction (isNew : Bool) (agent_name : String) : String :=
  if isNew then greetingSectionPre ++ (agent_name ++ greetingSectionSuf)
  else continuationSection

/-- The prompt text accumulated before the continuity directive
(`agent.py:184-219`): base prompt with identity injected, optional KB
enhancement, then the multilingual instruction. -/
def promptPre (cfg : AgentConfig) (kb : Option String) : String :=
  let sp := promptWithIdentity cfg.system_prompt cfg.name cfg.description
  let sp := if optStrTruthy kb then enhance_system_prompt_with_kb sp kb else sp
  sp ++ multilingualInstruction

/-- The fully composed system prompt handed to the pipeline session
(`agent.py:184-343`), with the appends left-nested as the `+=` sequence
performs them. -/
def composedSystemPrompt (cfg : AgentConfig) (kb : Option String)
    (isNew : Bool) : String :=
  ((promptPre cfg kb ++ continuityInstruction isNew cfg.name)
    ++ contactCollectionInstruction) ++ spokenStyleInstruction

/-- The composed prompt as its ordered list of appended blocks. -/
def promptSections (cfg : AgentConfig) (kb : Option String)
    (isNew : Bool) : List String :=
  [promptPre cfg kb, continuityInstruction isNew cfg.name,
    contactCollectionInstruction, spokenStyleInstruction]

/-- The composed prompt is exactly the concatenation of its blocks. -/
theorem composedSystemPrompt_eq_join (cfg : AgentConfig) (kb : Option String)
    (isNew : Bool) :
    composedSystemPrompt cfg kb isNew = String.join (promptSections cfg kb isNew) := by
  simp [composedSystemPrompt, promptSections, String.join]

/-! ## Knowledge base retrieval (`knowledge_base.py:12-80`) -/

/-- One element of the `results` list of the search response; `text` is
`result["metadata"]["text"]` when present (`metadata.get("text", "")`
yields `""` when the key or the whole `metadata` object is missing). -/
structure KBEntry where
  text : Option String
deriving DecidableEq, Repr

/-- Outcome of the HTTP POST to the search endpoint: `transportError`
covers every raised exception (`asyncio.TimeoutError`, `aiohttp.ClientError`
and the catch-all branch), `httpResponse` a completed response with its
status and decoded `results` list (`[]` when the key is missing). -/
inductive KBOutcome where
  | transportError
  | httpResponse (status : Nat) (results : List KBEntry)
deriving DecidableEq, Repr

/-- The `context_parts` accumulation loop (`knowledge_base.py:52-57`):
each result's metadata text is appended when non-empty. -/
def collectParts : List KBEntry → List String
  | [] => []
  | e :: rest =>
    if e.text.getD "" != "" then e.text.getD "" :: collectParts rest
    else collectParts rest

/-- `get_knowledge_base_context` (`knowledge_base.py:12-80`): on a 200
response with a non-empty `results` list and at least one non-empty text,
the texts joined by `"\n\n"`; every other branch (transport error, caught
exception, non-200 status, empty results, all-empty texts) returns `None`.
Totality of this function is the embedded form of "never raises into the
caller". -/
def get_knowledge_base_context (outcome : KBOutcome) : Option String :=
  match outcome with
  | .transportError => none
  | .httpResponse status results =>
    if status == 200 then
      if results.isEmpty then none
      else
        let parts := collectParts results
        if parts.isEmpty then none
        else some (String.intercalate "\n\n" parts)
    else none

/-! ## Conversation-item text normalization (`agent.py:646-696`)

`on_conversation_item_added` cleans an item's text before persisting it:
bracketed text is first offered to `json.loads`; on success the first list
element is taken, on failure brackets and stray quotes are stripped.
`json.loads` is modelled by a parser for JSON arrays of JSON strings (the
shape this handler unwraps); other JSON shapes and `\u` escapes are
treated as parse failures and fall through to the stripping branch. -/

/-- Drop leading JSON whitespace. -/
def skipWs : List Char → List Char
  | [] => []
  | c :: t =>
    if c == ' ' || c == '\t' || c == '\n' || c == '\r' then skipWs t else c :: t

/-- Parse the body of a JSON string after its opening quote, handling the
single-character escapes; returns the decoded string and the rest of the
input after the closing quote. -/
def parseStringBody (acc : List Char) : List Char → Option (String × List Char)
  | [] => none
  | c :: t =>
    if c == '\x22' then some (⟨acc.reverse⟩, t)
    else if c == '\\' then
      match t with
      | [] => none
      | e :: t2 =>
        if e == '\x22' then parseStringBody ('\x22' :: acc) t2
        else if e == '\\' then parseStringBody ('\\' :: acc) t2
        else if e == '/' then parseStringBody ('/' :: acc) t2
        else if e == 'n' then parseStringBody ('\n' :: acc) t2
        else if e == 't' then parseStringBody ('\t' :: acc) t2
        else if e == 'r' then parseStringBody ('\r' :: acc) t2
        else if e == 'b' then parseStringBody ('\x08' :: acc) t2
        else if e == 'f' then parseStringBody ('\x0c' :: acc) t2
        else none
    else if c.toNat < 32 then none
    else parseStringBody (c :: acc) t

/-- Parse a comma-separated sequence of JSON strings terminated by `]`.
The fuel argument (instantiated with the input length) bounds the loop. -/
def parseItemsAux : Nat → List Char → Option (List String × List Char)
  | 0, _ => none
  | fuel + 1, l =>
    match skipWs l with
    | c :: t =>
      if c == '\x22' then
        match parseStringBody [] t with
        | none => none
        | some (s, rest) =>
          match skipWs rest with
          | ',' :: t2 =>
            match parseItemsAux fuel t2 with
            | some (ss, r3) => some (s :: ss, r3)
            | none => none
          | ']' :: t2 => some ([s], t2)
          | _ => none
      else none
    | [] => none

/-- `json.loads` restricted to JSON arrays of JSON strings: the full input
must be one array, possibly surrounded by whitespace. -/
def parseJsonStringArray (s : String) : Option (List String) :=
  match skipWs s.data with
  | '[' :: t =>
    match skipWs t with
    | ']' :: r => if (skipWs r).isEmpty then some [] else none
    | _ =>
      match parseItemsAux (t.length + 1) t with
      | some (ss, rest) => if (skipWs rest).isEmpty then some ss else none
      | none => none
  | _ => none

/-- Python `s.strip(chars)`: remove the given characters from both ends. -/
def stripCharsStr (s : String) (set : List Char) : String :=
  ⟨((s.data.dropWhile (set.contains ·)).reverse.dropWhile (set.contains ·)).reverse⟩

/-- The text-normalization of `on_conversation_item_added`
(`agent.py:660-673`): trim, then for bracketed text attempt JSON parsing
(taking the first element of a non-empty array; an empty array leaves the
text unchanged); on parse failure strip brackets, then double quotes, then
single quotes from the ends. A successfully parsed top-level value that is
not a list cannot arise from input starting with `[`, so the
`isinstance(parsed, str)` branch has no counterpart here. -/
def cleanConversationText (content : String) : String :=
  let s := pyStrip content
  if pyStartsWith s "[" && pyEndsWith s "]" then
    match parseJsonStringArray s with
    | some (x :: _) => x
    | some [] => s
    | none => stripCharsStr (stripCharsStr (stripCharsStr s ['[', ']']) ['\x22']) ['\x27']
  else s

/-- The transcript row handed to `save_message` (`agent.py:683-689`). -/
structure SavedMessage where
  conversation_id : String
  content : String
  sender_type : String
  message_type : String
deriving DecidableEq, Repr

/-- `on_conversation_item_added` (`agent.py:646-696`) as the persistence
decision it makes for one item: `none` when the item is skipped (missing
conversation id, falsy text, or text empty after normalization), otherwise
the message row scheduled for `save_message`. -/
def on_conversation_item_added (conversation_id : Option String)
    (role : String) (content : String) : Option SavedMessage :=
  if !optStrTruthy conversation_id then none
  else if content == "" then none
  else
    let content_str := cleanConversationText content
    if content_str == "" then none
    else some {
      conversation_id := conversation_id.getD ""
      content := content_str
      sender_type := if role == "user" then "user" else "agent"
      message_type := "audio"
    }

/-! ## Extracted contact information (`contact_extractor.py`) -/

/-- `ExtractedContactInfo` (`contact_extractor.py:14-38`). -/
structure ExtractedContactInfo where
  email : Option String := none
  phone : Option String := none
  first_name : Option String := none
  last_name : Option String := none
  company_name : Option String := none
  confidence : Option ℚ := none
  errors_detected : List String := []
  corrections_made : List (String × String) := []
deriving DecidableEq, Repr

/-- `ExtractedContactInfo.has_contact_info` (`contact_extractor.py:36-38`). -/
def has_contact_info (e : ExtractedContactInfo) : Bool :=
  optStrTruthy e.email || optStrTruthy e.phone || optStrTruthy e.first_name
    || optStrTruthy e.last_name || optStrTruthy e.company_name

/-- The decoded JSON object returned by the extraction model
(`contact_extractor.py:121-122`); absent keys are `none`. The string
`"null"` is a possible value of the string-typed fields, distinct from
JSON `null` (which decodes to `none`). -/
structure LLMExtractionResult where
  email : Option String := none
  phone : Option String := none
  first_name : Option String := none
  last_name : Option String := none
  company_name : Option String := none
  confidence : Option ℚ := none
  errors_detected : Option (List String) := none
  corrections_made : Option (List (String × String)) := none
deriving DecidableEq, Repr

/-- Python `"".join(filter(str.isdigit, s))` (restricted to ASCII digits). -/
def digitsOnly (s : String) : String :=
  ⟨s.data.filter Char.isDigit⟩

/-- The validation layer of `extract_contact_info_llm`
(`contact_extractor.py:124-157`): each field of the model's JSON reply is
kept only when truthy and not the string `"null"`; emails must contain
`@` and are lowercased and stripped; phones are reduced to their digits
and kept only with at least 10 of them; names additionally require
`confidence >= 0.7`, where a missing confidence reads as `0.0`. -/
def validateExtraction (result : LLMExtractionResult) : ExtractedContactInfo :=
  let confidence : ℚ := result.confidence.getD 0
  { email :=
      match result.email with
      | some s =>
        if s ≠ "" ∧ s ≠ "null" ∧ strContains s "@" = true
        then some (pyStrip (pyLower s)) else none
      | none => none
    phone :=
      match result.phone with
      | some s =>
        if s ≠ "" ∧ s ≠ "null" then
          let phone_digits := digitsOnly s
          if 10 ≤ phone_digits.length then some phone_digits else none
        else none
      | none => none
    first_name :=
      match result.first_name with
      | some s =>
        if s ≠ "" ∧ s ≠ "null" ∧ (7 : ℚ)/10 ≤ confidence
        then some (pyStrip s) else none
      | none => none
    last_name :=
      match result.last_name with
      | some s =>
        if s ≠ "" ∧ s ≠ "null" ∧ (7 : ℚ)/10 ≤ confidence
        then some (pyStrip s) else none
      | none => none
    company_name :=
      match result.company_name with
      | some s => if s ≠ "" ∧ s ≠ "null" then some (pyStrip s) else none
      | none => none
    confidence := result.confidence
    errors_detected :=
      match result.errors_detected with
      | some l => if l.isEmpty then [] else l
      | none => []
    corrections_made :=
      match result.corrections_made with
      | some l => if l.isEmpty then [] else l
      | none => [] }

/-! ## Metadata merge (`contact_extractor.py:164-186`)

Conversation metadata is a Python dict; it is modelled as an association
list whose assignment `m[k] = v` overwrites in place when the key exists
and appends otherwise. -/

/-- Conversation metadata mapping. -/
abbrev Metadata := List (String × String)

/-- `m.get(k)`: the value at the first binding of `k`. -/
def mdGet : Metadata → String → Option String
  | [], _ => none
  | (a, b) :: t, k => if a == k then some b else mdGet t k

/-- Python truthiness of `m.get(k)`: present with a non-empty value. -/
def mdTruthy (m : Metadata) (k : String) : Bool :=
  match mdGet m k with
  | some v => v != ""
  | none => false

/-- `k in m`: whether the dict has a binding for `k`. -/
def mdHasKey : Metadata → String → Bool
  | [], _ => false
  | (a, _) :: t, k => a == k || mdHasKey t k

/-- Dict assignment `m[k] = v`: overwrite in place when the key exists,
append a new binding otherwise. -/
def mdSet (m : Metadata) (k v : String) : Metadata :=
  if mdHasKey m k then m.map (fun p => if p.1 == k then (k, v) else p)
  else m ++ [(k, v)]

/-- One `if extracted.f and not merged.get(f): merged[f] = extracted.f`
step of `merge_contact_info`. -/
def mergeField (m : Metadata) (k : String) (v : Option String) : Metadata :=
  if optStrTruthy v && !mdTruthy m k then mdSet m k (v.getD "") else m

/-- `merge_contact_info(existing, extracted)`
(`contact_extractor.py:164-186`): starting from a copy of `existing`, each
of the five contact fields is added only when extracted non-empty and not
already present with a non-empty value. -/
def merge_contact_info (existing : Metadata) (extracted : ExtractedContactInfo) :
    Metadata :=
  mergeField (mergeField (mergeField (mergeField (mergeField existing
    "email" extracted.email) "phone" extracted.phone)
    "first_name" extracted.first_name) "last_name" extracted.last_name)
    "company_name" extracted.company_name

/-- The five contact fields `merge_contact_info` touches. -/
def contactFieldKeys : List String :=
  ["email", "phone", "first_name", "last_name", "company_name"]

/-! ## Lemmas about metadata lookup and assignment -/

theorem mdGet_map_set_ne (m : Metadata) (k v k' : String) (h : k' ≠ k) :
    mdGet (m.map (fun p => if p.1 == k then (k, v) else p)) k' = mdGet m k' := by
  induction m with
  | nil => rfl
  | cons p t ih =>
    obtain ⟨a, b⟩ := p
    simp only [List.map_cons]
    by_cases ha : a = k
    · subst ha
      rw [if_pos (show ((a, b).1 == a) = true by simp)]
      simp only [mdGet]
      rw [if_neg (show ¬((a == k') = true) by simp [Ne.symm h]),
        if_neg (show ¬((a == k') = true) by simp [Ne.symm h])]
      exact ih
    · rw [if_neg (show ¬(((a, b).1 == k) = true) by simp [ha])]
      simp only [mdGet]
      by_cases ha' : a = k'
      · rw [if_pos (show ((a == k') = true) by simp [ha']),
          if_pos (show ((a == k') = true) by simp [ha'])]
      · rw [if_neg (show ¬((a == k') = true) by simp [ha']),
          if_neg (show ¬((a == k') = true) by simp [ha'])]
        exact ih

theorem mdGet_append_single_ne (m : Metadata) (k v k' : String) (h : k' ≠ k) :
    mdGet (m ++ [(k, v)]) k' = mdGet m k' := by
  induction m with
  | nil =>
    simp only [List.nil_append, mdGet]
    rw [if_neg (show ¬((k == k') = true) by simp [Ne.symm h])]
  | cons p t ih =>
    obtain ⟨a, b⟩ := p
    rw [List.cons_append]
    simp only [mdGet]
    by_cases ha' : a = k'
    · rw [if_pos (show ((a == k') = true) by simp [ha']),
        if_pos (show ((a == k') = true) by simp [ha'])]
    · rw [if_neg (show ¬((a == k') = true) by simp [ha']),
        if_neg (show ¬((a == k') = true) by simp [ha'])]
      exact ih

theorem mdGet_map_set_self (m : Metadata) (k v : String)
    (hs : mdHasKey m k = true) :
    mdGet (m.map (fun p => if p.1 == k then (k, v) else p)) k = some v := by
  induction m with
  | nil => simp [mdHasKey] at hs
  | cons p t ih =>
    obtain ⟨a, b⟩ := p
    simp only [List.map_cons]
    by_cases ha : a = k
    · subst ha
      rw [if_pos (show ((a, b).1 == a) = true by simp)]
      simp only [mdGet]
      rw [if_pos (show ((a == a) = true) by simp)]
    · rw [if_neg (show ¬(((a, b).1 == k) = true) by simp [ha])]
      simp only [mdGet]
      rw [if_neg (show ¬((a == k) = true) by simp [ha])]
      apply ih
      simp only [mdHasKey, Bool.or_eq_true, beq_iff_eq] at hs
      rcases hs with h1 | h2
      · exact absurd h1 ha
      · exact h2

theorem mdGet_append_single_self (m : Metadata) (k v : String)
    (hn : mdHasKey m k = false) :
    mdGet (m ++ [(k, v)]) k = some v := by
  induction m with
  | nil =>
    simp only [List.nil_append, mdGet]
    rw [if_pos (show ((k == k) = true) by simp)]
  | cons p t ih =>
    obtain ⟨a, b⟩ := p
    simp only [mdHasKey, Bool.or_eq_false_iff] at hn
    rw [List.cons_append]
    simp only [mdGet]
    rw [if_neg (show ¬((a == k) = true) by simp [hn.1])]
    exact ih hn.2

theorem mdGet_mdSet_ne (m : Metadata) (k v k' : String) (h : k' ≠ k) :
    mdGet (mdSet m k v) k' = mdGet m k' := by
  unfold mdSet
  by_cases hs : mdHasKey m k = true
  · rw [if_pos hs]
    exact mdGet_map_set_ne m k v k' h
  · rw [if_neg hs]
    exact mdGet_append_single_ne m k v k' h

theorem mdGet_mdSet_self (m : Metadata) (k v : String) :
    mdGet (mdSet m k v) k = some v := by
  unfold mdSet
  by_cases hs : mdHasKey m k = true
  · rw [if_pos hs]
    exact mdGet_map_set_self m k v hs
  · rw [if_neg hs]
    exact mdGet_append_single_self m k v (by simpa using hs)

theorem mdTruthy_congr {m m' : Metadata} {k : String}
    (h : mdGet m k = mdGet m' k) : mdTruthy m k = mdTruthy m' k := by
  unfold mdTruthy
  rw [h]

/-! ## Lemmas about one merge step -/

theorem mergeField_of_truthy {m : Metadata} {k : String} (v : Option String)
    (h : mdTruthy m k = true) : mergeField m k v = m := by
  unfold mergeField
  rw [h]
  simp

theorem mdGet_mergeField_ne (m : Metadata) (k : String) (v : Option String)
    (k' : String) (h : k' ≠ k) :
    mdGet (mergeField m k v) k' = mdGet m k' := by
  unfold mergeField
  by_cases hc : (optStrTruthy v && !mdTruthy m k) = true
  · rw [if_pos hc]
    exact mdGet_mdSet_ne m k _ k' h
  · rw [if_neg hc]

theorem mdTruthy_mergeField_ne (m : Metadata) (k : String) (v : Option String)
    (k' : String) (h : k' ≠ k) :
    mdTruthy (mergeField m k v) k' = mdTruthy m k' :=
  mdTruthy_congr (mdGet_mergeField_ne m k v k' h)

theorem mdGet_mergeField_of_truthy {m : Metadata} {k' : String}
    (k : String) (v : Option String) (h : mdTruthy m k' = true) :
    mdGet (mergeField m k v) k' = mdGet m k' := by
  by_cases hk : k' = k
  · subst hk
    rw [mergeField_of_truthy v h]
  · exact mdGet_mergeField_ne m k v k' hk

theorem mdTruthy_mergeField_of_truthy {m : Metadata} {k' : String}
    (k : String) (v : Option String) (h : mdTruthy m k' = true) :
    mdTruthy (mergeField m k v) k' = true :=
  (mdTruthy_congr (mdGet_mergeField_of_truthy k v h)).trans h

theorem optStrTruthy_getD_ne {v : Option String} (h : optStrTruthy v = true) :
    (v.getD "" != "") = true := by
  cases v with
  | none => simp [optStrTruthy] at h
  | some s => simpa [optStrTruthy] using h

theorem mdTruthy_mergeField_self (m : Metadata) (k : String) {v : Option String}
    (hv : optStrTruthy v = true) :
    mdTruthy (mergeField m k v) k = true := by
  by_cases hm : mdTruthy m k = true
  · rw [mergeField_of_truthy v hm]
    exact hm
  · have hm' : mdTruthy m k = false := by simpa using hm
    unfold mergeField
    rw [hv, hm']
    simp only [Bool.not_false, Bool.and_true, if_true]
    unfold mdTruthy
    rw [mdGet_mdSet_self]
    exact optStrTruthy_getD_ne hv

theorem mergeField_idem_after (m : Metadata) (k : String) (v : Option String)
    (h : optStrTruthy v = true → mdTruthy m k = true) : mergeField m k v = m := by
  by_cases hv : optStrTruthy v = true
  · exact mergeField_of_truthy v (h hv)
  · unfold mergeField
    rw [(by simpa using hv : optStrTruthy v = false)]
    simp

theorem mdGet_mergeField_isSome {m : Metadata} {k' : String}
    (k : String) (v : Option String) (h : (mdGet m k').isSome = true) :
    (mdGet (mergeField m k v) k').isSome = true := by
  by_cases hk : k' = k
  · subst hk
    unfold mergeField
    by_cases hc : (optStrTruthy v && !mdTruthy m k') = true
    · rw [if_pos hc, mdGet_mdSet_self]
      rfl
    · rw [if_neg hc]
      exact h
  · rw [mdGet_mergeField_ne m k v k' hk]
    exact h

/-! ## Properties of the full merge -/

theorem mdGet_merge_of_truthy (m : Metadata) (e : ExtractedContactInfo)
    (k : String) (h : mdTruthy m k = true) :
    mdGet (merge_contact_info m e) k = mdGet m k := by
  unfold merge_contact_info
  have t1 := mdTruthy_mergeField_of_truthy (m := m) "email" e.email h
  have t2 := mdTruthy_mergeField_of_truthy "phone" e.phone t1
  have t3 := mdTruthy_mergeField_of_truthy "first_name" e.first_name t2
  have t4 := mdTruthy_mergeField_of_truthy "last_name" e.last_name t3
  rw [mdGet_mergeField_of_truthy "company_name" e.company_name t4,
    mdGet_mergeField_of_truthy "last_name" e.last_name t3,
    mdGet_mergeField_of_truthy "first_name" e.first_name t2,
    mdGet_mergeField_of_truthy "phone" e.phone t1,
    mdGet_mergeField_of_truthy "email" e.email h]

theorem mdGet_merge_of_not_contact_key (m : Metadata) (e : ExtractedContactInfo)
    (k : String) (h : k ∉ contactFieldKeys) :
    mdGet (merge_contact_info m e) k = mdGet m k := by
  simp only [contactFieldKeys, List.mem_cons, List.not_mem_nil, or_false, not_or] at h
  obtain ⟨h1, h2, h3, h4, h5⟩ := h
  unfold merge_contact_info
  rw [mdGet_mergeField_ne _ _ _ _ h5, mdGet_mergeField_ne _ _ _ _ h4,
    mdGet_mergeField_ne _ _ _ _ h3, mdGet_mergeField_ne _ _ _ _ h2,
    mdGet_mergeField_ne _ _ _ _ h1]

theorem mdGet_merge_isSome (m : Metadata) (e : ExtractedContactInfo)
    (k : String) (h : (mdGet m k).isSome = true) :
    (mdGet (merge_contact_info m e) k).isSome = true := by
  unfold merge_contact_info
  exact mdGet_mergeField_isSome _ _ (mdGet_mergeField_isSome _ _
    (mdGet_mergeField_isSome _ _ (mdGet_mergeField_isSome _ _
      (mdGet_mergeField_isSome _ _ h))))

theorem mdTruthy_merge_email (m : Metadata) (e : ExtractedContactInfo)
    (hv : optStrTruthy e.email = true) :
    mdTruthy (merge_contact_info m e) "email" = true := by
  unfold merge_contact_info
  rw [mdTruthy_mergeField_ne _ _ _ _ (by decide), mdTruthy_mergeField_ne _ _ _ _ (by decide),
    mdTruthy_mergeField_ne _ _ _ _ (by decide), mdTruthy_mergeField_ne _ _ _ _ (by decide)]
  exact mdTruthy_mergeField_self m "email" hv

theorem mdTruthy_merge_phone (m : Metadata) (e : ExtractedContactInfo)
    (hv : optStrTruthy e.phone = true) :
    mdTruthy (merge_contact_info m e) "phone" = true := by
  unfold merge_contact_info
  rw [mdTruthy_mergeField_ne _ _ _ _ (by decide), mdTruthy_mergeField_ne _ _ _ _ (by decide),
    mdTruthy_mergeField_ne _ _ _ _ (by decide)]
  exact mdTruthy_mergeField_self _ "phone" hv

theorem mdTruthy_merge_first_name (m : Metadata) (e : ExtractedContactInfo)
    (hv : optStrTruthy e.first_name = true) :
    mdTruthy (merge_contact_info m e) "first_name" = true := by
  unfold merge_contact_info
  rw [mdTruthy_mergeField_ne _ _ _ _ (by decide), mdTruthy_mergeField_ne _ _ _ _ (by decide)]
  exact mdTruthy_mergeField_self _ "first_name" hv

theorem mdTruthy_merge_last_name (m : Metadata) (e : ExtractedContactInfo)
    (hv : optStrTruthy e.last_name = true) :
    mdTruthy (merge_contact_info m e) "last_name" = true := by
  unfold merge_contact_info
  rw [mdTruthy_mergeField_ne _ _ _ _ (by decide)]
  exact mdTruthy_mergeField_self _ "last_name" hv

theorem mdTruthy_merge_company_name (m : Metadata) (e : ExtractedContactInfo)
    (hv : optStrTruthy e.company_name = true) :
    mdTruthy (merge_contact_info m e) "company_name" = true := by
  unfold merge_contact_info
  exact mdTruthy_mergeField_self _ "company_name" hv

theorem merge_contact_info_idem (m : Metadata) (e : ExtractedContactInfo) :
    merge_contact_info (merge_contact_info m e) e = merge_contact_info m e := by
  show mergeField (mergeField (mergeField (mergeField (mergeField (merge_contact_info m e)
    "email" e.email) "phone" e.phone) "first_name" e.first_name)
    "last_name" e.last_name) "company_name" e.company_name = merge_contact_info m e
  rw [mergeField_idem_after _ "email" e.email (mdTruthy_merge_email m e),
    mergeField_idem_after _ "phone" e.phone (mdTruthy_merge_phone m e),
    mergeField_idem_after _ "first_name" e.first_name (mdTruthy_merge_first_name m e),
    mergeField_idem_after _ "last_name" e.last_name (mdTruthy_merge_last_name m e),
    mergeField_idem_after _ "company_name" e.company_name (mdTruthy_merge_company_name m e)]

/-! ## Containment and distinctness of prompt blocks -/

theorem charsContains_append_left (l m p : List Char)
    (h : charsContains m p = true) : charsContains (l ++ m) p = true := by
  induction l with
  | nil => simpa using h
  | cons c t ih => simp [charsContains, ih]

theorem charsContains_refl (l : List Char) : charsContains l l = true := by
  cases l with
  | nil => rfl
  | cons c t => simp [charsContains, List.isPrefixOf_iff_prefix]

/-- Two strings differ when the first disagrees with the second on an
initial segment it fully covers, whatever is appended to it. -/
theorem str_append_ne_of_take_ne (a s c : String) (n : Nat)
    (hn : n ≤ a.data.length) (h : a.data.take n ≠ c.data.take n) :
    a ++ s ≠ c := by
  intro he
  apply h
  have hd : a.data ++ s.data = c.data := by
    rw [← String.data_append, he]
  calc a.data.take n = (a.data ++ s.data).take n :=
        (List.take_append_of_le_length hn).symm
    _ = c.data.take n := by rw [hd]

set_option maxRecDepth 4000 in
theorem greeting_ne_continuation (name : String) :
    greetingSectionPre ++ (name ++ greetingSectionSuf) ≠ continuationSection :=
  str_append_ne_of_take_ne _ _ _ 25 (by decide) (by decide)

set_option maxRecDepth 4000 in
theorem greeting_ne_contact (name : String) :
    greetingSectionPre ++ (name ++ greetingSectionSuf) ≠ contactCollectionInstruction :=
  str_append_ne_of_take_ne _ _ _ 25 (by decide) (by decide)

set_option maxRecDepth 4000 in
theorem greeting_ne_spoken (name : String) :
    greetingSectionPre ++ (name ++ greetingSectionSuf) ≠ spokenStyleInstruction :=
  str_append_ne_of_take_ne _ _ _ 25 (by decide) (by decide)

/-! ## Claim theorems -/

/-- C1: when the caller supplies a (non-empty) `company_id` and the config
store hands back a row whose `company_id` differs, `get_agent_config`
raises the `SecurityViolation` error; the entrypoint's config-loading step
propagates exactly that error (nothing catches it), and no configuration
value is produced from the mismatching row. -/
theorem get_agent_config_security_violation (agent_id cid : String) (row : AgentRow)
    (hcid : cid ≠ "") (hmis : row.company_id ≠ some cid)
    (ha : agent_id ≠ "unknown") (ha' : agent_id ≠ "") :
    get_agent_config (some row) agent_id (some cid)
        = .error (.securityViolation agent_id cid)
    ∧ entryLoadConfig (some agent_id) (some cid) (some row)
        = .error (.securityViolation agent_id cid)
    ∧ ∀ c : AgentConfig,
        entryLoadConfig (some agent_id) (some cid) (some row) ≠ .ok c := by
  have hcond : (optStrTruthy (some cid) && (row.company_id != some cid)) = true := by
    simp [optStrTruthy, hcid, hmis]
  have hget : get_agent_config (some row) agent_id (some cid)
      = .error (.securityViolation agent_id cid) := by
    show (if (optStrTruthy (some cid) && (row.company_id != some cid)) = true
        then Except.error (ConfigError.securityViolation agent_id ((some cid).getD ""))
        else _) = _
    rw [if_pos hcond]
    rfl
  have hentry : entryLoadConfig (some agent_id) (some cid) (some row)
      = .error (.securityViolation agent_id cid) := by
    simp only [entryLoadConfig, optStrTruthy, Option.getD_some]
    rw [show ((agent_id != "") : Bool) = true by simpa using ha']
    simp only [if_true]
    rw [if_neg (show ¬((agent_id == "unknown") = true) by simp [ha])]
    exact hget
  refine ⟨hget, hentry, ?_⟩
  intro c hc
  rw [hentry] at hc
  exact Except.noConfusion hc

/-- Witness for C1: company `A` caller, row owned by company `B`. -/
theorem get_agent_config_security_violation_witness :
    get_agent_config (some ⟨"agent-1", some "B", some "Support Bot",
        none, none, none, none, none⟩) "agent-1" (some "A")
        = .error (.securityViolation "agent-1" "A")
    ∧ entryLoadConfig (some "agent-1") (some "A")
        (some ⟨"agent-1", some "B", some "Support Bot", none, none, none, none, none⟩)
        ≠ .ok defaultUnknownConfig := by
  have h := get_agent_config_security_violation "agent-1" "A"
    ⟨"agent-1", some "B", some "Support Bot", none, none, none, none, none⟩
    (by decide) (by decide) (by decide) (by decide)
  exact ⟨h.1, h.2.2 defaultUnknownConfig⟩

/-- C2 counterexample: with exactly one prior history row — which the
probe's `limit = 1` request reports as a one-element `messages` list, so
"at most one history row" holds — the code sets `is_new_conversation` to
`false`, not `true` as the claim's "≤ 1 history row ⇒ new" requires. -/
theorem checkIsNewConversation_one_row_counterexample :
    serviceListMessages ["hello"] 1 = ["hello"]
    ∧ (["hello"] : List String).length ≤ 1
    ∧ checkIsNewConversation (some "conv-1")
        (.response 200 (serviceListMessages ["hello"] 1)) = false := by
  decide

/-- C2 (amended): `is_new_conversation` is `false` exactly when the probe
ran (truthy `conversation_id`) and returned a 200 response with a
non-empty `messages` list; equivalently, against a well-behaved transcript
service it is `true` iff there are zero prior history rows. Any probe
failure, any non-200 status, and an absent `conversation_id` all leave the
default `true`. -/
theorem checkIsNewConversation_spec (cid : Option String) (probe : ProbeOutcome) :
    (checkIsNewConversation cid probe = false ↔
      (optStrTruthy cid = true ∧ ∃ msgs, probe = .response 200 msgs ∧ msgs ≠ []))
    ∧ ∀ (c : String) (history : List String), c ≠ "" →
        (checkIsNewConversation (some c)
            (.response 200 (serviceListMessages history 1)) = true
          ↔ history = []) := by
  constructor
  · by_cases hc : optStrTruthy cid = true
    · cases probe with
      | failure => simp [checkIsNewConversation, hc]
      | response st msgs =>
        by_cases hst : st = 200
        · subst hst
          simp [checkIsNewConversation, hc, List.length_eq_zero]
        · simp [checkIsNewConversation, hc, hst]
    · simp [checkIsNewConversation, hc]
  · intro c history hc
    unfold checkIsNewConversation serviceListMessages
    rw [if_pos (show optStrTruthy (some c) = true by simp [optStrTruthy, hc])]
    cases history with
    | nil => simp
    | cons x xs => simp

/-- Witness for C2: empty history yields `true` through the theorem. -/
theorem checkIsNewConversation_spec_witness :
    checkIsNewConversation (some "conv-1")
      (.response 200 (serviceListMessages [] 1)) = true :=
  ((checkIsNewConversation_spec (some "conv-1")
      (.response 200 (serviceListMessages [] 1))).2 "conv-1" [] (by decide)).mpr rfl

/-- C3: the merge never replaces a field of the existing metadata that is
present with a non-empty value, only fills fields that are absent or
empty, and is idempotent. -/
theorem merge_contact_info_additive_idempotent (m : Metadata)
    (e : ExtractedContactInfo) :
    (∀ k, mdTruthy m k = true → mdGet (merge_contact_info m e) k = mdGet m k)
    ∧ (∀ k, mdGet (merge_contact_info m e) k ≠ mdGet m k → mdTruthy m k = false)
    ∧ merge_contact_info (merge_contact_info m e) e = merge_contact_info m e := by
  refine ⟨fun k h => mdGet_merge_of_truthy m e k h, ?_, merge_contact_info_idem m e⟩
  intro k hne
  by_contra hcon
  exact hne (mdGet_merge_of_truthy m e k (by simpa using hcon))

/-- Witness for C3: an existing non-empty email survives a merge, and the
merge is idempotent at that input. -/
theorem merge_contact_info_additive_idempotent_witness :
    mdGet (merge_contact_info [("email", "kept@x.com")]
        { email := some "new@x.com" }) "email"
      = mdGet [("email", "kept@x.com")] "email"
    ∧ merge_contact_info
        (merge_contact_info [("email", "kept@x.com")] { email := some "new@x.com" })
        { email := some "new@x.com" }
      = merge_contact_info [("email", "kept@x.com")] { email := some "new@x.com" } :=
  ⟨(merge_contact_info_additive_idempotent _ _).1 "email" (by decide),
   (merge_contact_info_additive_idempotent _ _).2.2⟩

/-- C4: the composed prompt's continuity block is the greeting variant
exactly when the conversation is new and the no-re-greet variant exactly
when it is not — never both; the greeting variant instructs the model to
speak first and introduce itself, the continuation variant not to re-greet.
The two hypotheses rule out the degenerate configs whose identity/base/KB
prefix happens to coincide verbatim with a continuity block. -/
theorem composedPrompt_continuity_xor (cfg : AgentConfig) (kb : Option String)
    (isNew : Bool)
    (h1 : promptPre cfg kb ≠ continuityInstruction true cfg.name)
    (h2 : promptPre cfg kb ≠ continuityInstruction false cfg.name) :
    continuityInstruction isNew cfg.name ∈ promptSections cfg kb isNew
    ∧ continuityInstruction (!isNew) cfg.name ∉ promptSections cfg kb isNew
    ∧ strContains (composedSystemPrompt cfg kb isNew)
        (continuityInstruction isNew cfg.name) = true
    ∧ strContains (continuityInstruction true cfg.name)
        "You MUST speak first and introduce yourself" = true
    ∧ strContains (continuityInstruction false cfg.name)
        "DO NOT greet again or introduce yourself again" = true := by
  refine ⟨?_, ?_, ?_, ?_, ?_⟩
  · simp [promptSections]
  · cases isNew with
    | true =>
      intro hmem
      simp only [Bool.not_true, promptSections, List.mem_cons, List.not_mem_nil,
        or_false] at hmem
      rcases hmem with hmem | hmem | hmem | hmem
      · exact h2 hmem.symm
      · exact greeting_ne_continuation cfg.name hmem.symm
      · exact (by decide : continuationSection ≠ contactCollectionInstruction) hmem
      · exact (by decide : continuationSection ≠ spokenStyleInstruction) hmem
    | false =>
      intro hmem
      simp only [Bool.not_false, promptSections, List.mem_cons, List.not_mem_nil,
        or_false] at hmem
      rcases hmem with hmem | hmem | hmem | hmem
      · exact h1 hmem.symm
      · exact greeting_ne_continuation cfg.name hmem
      · exact greeting_ne_contact cfg.name hmem
      · exact greeting_ne_spoken cfg.name hmem
  · unfold composedSystemPrompt strContains
    rw [String.data_append, String.data_append, String.data_append]
    exact charsContains_append _ _ _ (charsContains_append _ _ _
      (charsContains_append_left _ _ _ (charsContains_refl _)))
  · show strContains (greetingSectionPre ++ (cfg.name ++ greetingSectionSuf)) _ = true
    unfold strContains
    rw [String.data_append]
    exact charsContains_append _ _ _ (by decide)
  · show strContains continuationSection _ = true
    decide

/-- Witness for C4 at the fallback configuration without KB context. -/
theorem composedPrompt_continuity_xor_witness :
    continuityInstruction true defaultUnknownConfig.name
        ∈ promptSections defaultUnknownConfig none true
    ∧ continuityInstruction false defaultUnknownConfig.name
        ∉ promptSections defaultUnknownConfig none true := by
  have h := composedPrompt_continuity_xor defaultUnknownConfig none true
    (by decide) (by decide)
  exact ⟨h.1, h.2.1⟩

/-- C5: the knowledge-base lookup is total over every call outcome — the
embedded form of "never raises into the caller" — and returns `none` on a
transport error or caught exception, on any non-200 status, and when no
non-empty passage text is available (empty result set included); on a 200
response with non-empty passage texts it returns exactly those texts
joined by blank lines. -/
theorem get_knowledge_base_context_spec (outcome : KBOutcome) :
    (outcome = .transportError → get_knowledge_base_context outcome = none)
    ∧ (∀ status results, outcome = .httpResponse status results → status ≠ 200 →
        get_knowledge_base_context outcome = none)
    ∧ (∀ results, outcome = .httpResponse 200 results → collectParts results = [] →
        get_knowledge_base_context outcome = none)
    ∧ (∀ results, outcome = .httpResponse 200 results → collectParts results ≠ [] →
        get_knowledge_base_context outcome
          = some (String.intercalate "\n\n" (collectParts results))) := by
  refine ⟨?_, ?_, ?_, ?_⟩
  · intro h
    subst h
    rfl
  · intro st rs h hst
    subst h
    simp [get_knowledge_base_context, hst]
  · intro rs h hcp
    subst h
    simp [get_knowledge_base_context, hcp]
  · intro rs h hcp
    subst h
    have hre : rs.isEmpty = false := by
      cases rs with
      | nil => exact absurd rfl hcp
      | cons a t => rfl
    simp [get_knowledge_base_context, hre, hcp]

/-- Witness for C5: an HTTP 500 yields `none`; a 200 with two non-empty
passages (one entry lacking text) yields their blank-line join. -/
theorem get_knowledge_base_context_spec_witness :
    get_knowledge_base_context (.httpResponse 500 []) = none
    ∧ get_knowledge_base_context (.httpResponse 200
        [⟨some "First passage."⟩, ⟨none⟩, ⟨some "Second passage."⟩])
      = some "First passage.\n\nSecond passage." := by
  constructor
  · exact (get_knowledge_base_context_spec _).2.1 500 [] rfl (by decide)
  · have h := (get_knowledge_base_context_spec (.httpResponse 200
      [⟨some "First passage."⟩, ⟨none⟩, ⟨some "Second passage."⟩])).2.2.2
      [⟨some "First passage."⟩, ⟨none⟩, ⟨some "Second passage."⟩] rfl (by decide)
    rw [h]
    decide

/-- C6: the transcript normalization maps the produced text
`"['hello there']"` to `"hello there"` (the single quotes defeat JSON
parsing, so the bracket/quote-stripping fallback applies), the persisted
row carries exactly that normalized text, and an item whose text is empty
after normalization is never persisted. -/
theorem conversation_item_normalization (conversation_id : Option String)
    (role content : String) :
    cleanConversationText "[\x27hello there\x27]" = "hello there"
    ∧ (on_conversation_item_added (some "conv-7") "agent"
        "[\x27hello there\x27]").map SavedMessage.content = some "hello there"
    ∧ (cleanConversationText content = "" →
        on_conversation_item_added conversation_id role content = none) := by
  refine ⟨by decide, by decide, ?_⟩
  intro h
  simp [on_conversation_item_added, h]

/-- Witness for C6: the JSON array `[""]` normalizes to the empty string
and the item is skipped. -/
theorem conversation_item_normalization_witness :
    on_conversation_item_added (some "conv-7") "user" "[\x22\x22]" = none :=
  (conversation_item_normalization (some "conv-7") "user" "[\x22\x22]").2.2 (by decide)

/-- C7 counterexample: with confidence exactly `0.7` and the non-empty
first name `"null"`, the validation layer still discards the name (the
string `"null"` is treated as the model's null sentinel), so "retained
when confidence equals exactly 0.7 and the field is non-empty" fails as
stated. -/
theorem name_confidence_gate_counterexample :
    ({ first_name := some "null", confidence := some ((7:ℚ)/10) }
        : LLMExtractionResult).first_name = some "null"
    ∧ "null" ≠ ""
    ∧ ({ first_name := some "null", confidence := some ((7:ℚ)/10) }
        : LLMExtractionResult).confidence.getD 0 = (7:ℚ)/10
    ∧ (validateExtraction
        { first_name := some "null", confidence := some ((7:ℚ)/10) }).first_name
      = none := by
  refine ⟨rfl, by decide, rfl, ?_⟩
  simp only [validateExtraction]
  exact if_neg (fun hcond => hcond.2.1 rfl)

/-- C7 (amended): first and last name are discarded whenever the reported
confidence is strictly below `0.7` (a missing confidence reads as `0.0`),
and retained (stripped) whenever confidence is at least `0.7` — exactly
`0.7` included — and the field is non-empty and not the literal string
`"null"`. -/
theorem name_confidence_gate (r : LLMExtractionResult) :
    (r.confidence.getD 0 < 7/10 →
      (validateExtraction r).first_name = none
        ∧ (validateExtraction r).last_name = none)
    ∧ (∀ s, r.first_name = some s → s ≠ "" → s ≠ "null" →
        (7:ℚ)/10 ≤ r.confidence.getD 0 →
        (validateExtraction r).first_name = some (pyStrip s))
    ∧ (∀ s, r.last_name = some s → s ≠ "" → s ≠ "null" →
        (7:ℚ)/10 ≤ r.confidence.getD 0 →
        (validateExtraction r).last_name = some (pyStrip s)) := by
  refine ⟨?_, ?_, ?_⟩
  · intro hconf
    constructor
    · cases hf : r.first_name with
      | none => simp [validateExtraction, hf]
      | some s =>
        simp only [validateExtraction, hf]
        exact if_neg (fun hcond => absurd hcond.2.2 (not_le.mpr hconf))
    · cases hf : r.last_name with
      | none => simp [validateExtraction, hf]
      | some s =>
        simp only [validateExtraction, hf]
        exact if_neg (fun hcond => absurd hcond.2.2 (not_le.mpr hconf))
  · intro s hf hs hn hconf
    simp only [validateExtraction, hf]
    exact if_pos ⟨hs, hn, hconf⟩
  · intro s hf hs hn hconf
    simp only [validateExtraction, hf]
    exact if_pos ⟨hs, hn, hconf⟩

/-- Witness for C7: `"Jane"` is retained at confidence exactly `0.7` and
dropped at confidence `0.5`. -/
theorem name_confidence_gate_witness :
    (validateExtraction
        { first_name := some "Jane", confidence := some ((7:ℚ)/10) }).first_name
      = some "Jane"
    ∧ (validateExtraction
        { first_name := some "Jane", confidence := some ((1:ℚ)/2) }).first_name
      = none := by
  constructor
  · have h := (name_confidence_gate
      { first_name := some "Jane", confidence := some ((7:ℚ)/10) }).2.1
      "Jane" rfl (by decide) (by decide) (by simp)
    rw [h]
    decide
  · exact ((name_confidence_gate
      { first_name := some "Jane", confidence := some ((1:ℚ)/2) }).1 (by norm_num)).1

/-- C8: a phone value is reduced to its digits and accepted exactly when
at least 10 digits remain (the falsy/`"null"` guards cannot fire with 10
or more digits present); in particular `"+1 (555) 123-4567"` normalizes
to the accepted 11-digit string `"15551234567"`. -/
theorem phone_validation (r : LLMExtractionResult) (s : String)
    (h : r.phone = some s) :
    ((validateExtraction r).phone
        = if 10 ≤ (digitsOnly s).length then some (digitsOnly s) else none)
    ∧ digitsOnly "+1 (555) 123-4567" = "15551234567" := by
  refine ⟨?_, by decide⟩
  simp only [validateExtraction, h]
  by_cases h1 : s = ""
  · subst h1
    rw [if_neg (fun hcond => hcond.1 rfl)]
    rw [if_neg (by decide : ¬(10 ≤ (digitsOnly "").length))]
  · by_cases h2 : s = "null"
    · subst h2
      rw [if_neg (fun hcond => hcond.2 rfl)]
      rw [if_neg (by decide : ¬(10 ≤ (digitsOnly "null").length))]
    · rw [if_pos ⟨h1, h2⟩]

/-- Witness for C8: the spec's example number is accepted as
`"15551234567"`, and an 8-digit number is discarded. -/
theorem phone_validation_witness :
    (validateExtraction { phone := some "+1 (555) 123-4567" }).phone
      = some "15551234567"
    ∧ (validateExtraction { phone := some "555-1234" }).phone = none := by
  constructor
  · rw [(phone_validation { phone := some "+1 (555) 123-4567" }
      "+1 (555) 123-4567" rfl).1]
    decide
  · rw [(phone_validation { phone := some "555-1234" } "555-1234" rfl).1]
    decide

/-- C9 counterexample: the non-empty company name `"null"` is rejected even
at confidence `1`, refuting "accepted whenever the model returns a
non-empty value" as stated. -/
theorem company_name_gate_counterexample :
    ({ company_name := some "null", confidence := some 1 }
        : LLMExtractionResult).company_name = some "null"
    ∧ "null" ≠ ""
    ∧ (validateExtraction
        { company_name := some "null", confidence := some 1 }).company_name
      = none := by
  refine ⟨rfl, by decide, ?_⟩
  simp only [validateExtraction]
  exact if_neg (fun hcond => hcond.2 rfl)

/-- C9 (amended): `company_name` is accepted (stripped) whenever the model
returns a non-empty value other than the literal string `"null"`,
regardless of the reported confidence; and the reported confidence has no
influence at all on the accepted `company_name`, `email`, or `phone` —
the 0.7 gate applies only to the name fields. -/
theorem company_name_no_confidence_gate (r : LLMExtractionResult) :
    (∀ s, r.company_name = some s → s ≠ "" → s ≠ "null" →
      (validateExtraction r).company_name = some (pyStrip s))
    ∧ ∀ c : Option ℚ,
        (validateExtraction { r with confidence := c }).company_name
            = (validateExtraction r).company_name
        ∧ (validateExtraction { r with confidence := c }).email
            = (validateExtraction r).email
        ∧ (validateExtraction { r with confidence := c }).phone
            = (validateExtraction r).phone := by
  constructor
  · intro s hf hs hn
    simp only [validateExtraction, hf]
    exact if_pos ⟨hs, hn⟩
  · intro c
    exact ⟨rfl, rfl, rfl⟩

/-- Witness for C9: `"Acme Corp"` is accepted at confidence `0`. -/
theorem company_name_no_confidence_gate_witness :
    (validateExtraction
        { company_name := some "Acme Corp", confidence := some 0 }).company_name
      = some "Acme Corp" := by
  rw [(company_name_no_confidence_gate
      { company_name := some "Acme Corp", confidence := some 0 }).1
      "Acme Corp" rfl (by decide) (by decide)]
  decide

/-- C10 counterexample: a key of the existing metadata bound to the empty
string is overwritten by the merge, so "every key of the existing mapping
appears unchanged in the result" fails as stated. -/
theorem merge_contact_info_overwrites_empty_counterexample :
    (mdGet [("email", "")] "email").isSome = true
    ∧ mdGet (merge_contact_info [("email", "")]
        { email := some "user@example.com" }) "email"
      ≠ mdGet [("email", "")] "email" := by
  decide

/-- C10 (amended): the merge is pure — the existing mapping is not
mutated, the result is a fresh value — and it preserves every key of the
existing mapping; keys outside the five contact fields keep their exact
value, as does any key whose existing value is non-empty. Only a contact
field that is absent or bound to an empty value can be (re)bound. -/
theorem merge_contact_info_frame (m : Metadata) (e : ExtractedContactInfo) :
    (∀ k, (mdGet m k).isSome = true → (mdGet (merge_contact_info m e) k).isSome = true)
    ∧ (∀ k, k ∉ contactFieldKeys → mdGet (merge_contact_info m e) k = mdGet m k)
    ∧ (∀ k, mdTruthy m k = true → mdGet (merge_contact_info m e) k = mdGet m k) :=
  ⟨fun k h => mdGet_merge_isSome m e k h,
   fun k h => mdGet_merge_of_not_contact_key m e k h,
   fun k h => mdGet_merge_of_truthy m e k h⟩

/-- Witness for C10: a non-contact key survives a merge unchanged. -/
theorem merge_contact_info_frame_witness :
    (mdGet (merge_contact_info [("topic", "jeans")]
        { first_name := some "Jane" }) "topic").isSome = true
    ∧ mdGet (merge_contact_info [("topic", "jeans")]
        { first_name := some "Jane" }) "topic"
      = mdGet [("topic", "jeans")] "topic" :=
  ⟨(merge_contact_info_frame _ _).1 "topic" (by decide),
   (merge_contact_info_frame _ _).2.1 "topic" (by decide)⟩
